import Mathlib

/-!
Shallow embedding of the agentic decision engine of
`src/framework/agentic_orchestrator.py`.

Python methods become Lean functions; the mutable objects
(`PipelineContext`, the resolver's `decision_history`, the orchestrator's
`execution_history`) become fields of an explicit state record `OrchState`
threaded through every call.  External effects that the claims observe are
modelled as append-only traces inside the state: `time.sleep` appends the
delay to `sleeps`, the escalation sink (`logger` in the source) receives
records in `escalations`, and `time.time()` is a logical clock `clock`
that ticks on every read.  Python `dict`s become insertion-ordered
association lists with `setKey`/`getKey` mirroring `d[k] = v` / `d.get(k)`.
Phase executors are the external-collaborator contract
`execute(context) -> PhaseResult`; the registry `self.phase_executors`
is a map `PipelinePhase -> Option Executor`.
-/

/-- `class AgentDecision(Enum)` of the source. -/
inductive AgentDecision where
  | PROCEED
  | RETRY
  | ESCALATE
  | ADAPT
  | TERMINATE
deriving DecidableEq, Repr

/-- The `.value` string of each `AgentDecision` enum member. -/
def decisionValue : AgentDecision → String
  | .PROCEED => "proceed"
  | .RETRY => "retry"
  | .ESCALATE => "escalate"
  | .ADAPT => "adapt"
  | .TERMINATE => "terminate"

/-- `class PipelinePhase(Enum)` of the source. -/
inductive PipelinePhase where
  | EXTRACT
  | VALIDATE
  | ANALYZE
  | TRANSFORM
  | BUILD
  | DEPLOY
deriving DecidableEq, Repr

/-- The `.value` string of each `PipelinePhase` enum member. -/
def phaseValue : PipelinePhase → String
  | .EXTRACT => "extract"
  | .VALIDATE => "validate"
  | .ANALYZE => "analyze"
  | .TRANSFORM => "transform"
  | .BUILD => "build"
  | .DEPLOY => "deploy"

/-- `class IssueType(Enum)` of the source. -/
inductive IssueType where
  | TRANSIENT
  | CONFIGURATION
  | DATA_QUALITY
  | RESOURCE
  | CRITICAL
deriving DecidableEq, Repr

/-- The `.value` string of each `IssueType` enum member. -/
def issueTypeValue : IssueType → String
  | .TRANSIENT => "transient"
  | .CONFIGURATION => "configuration"
  | .DATA_QUALITY => "data_quality"
  | .RESOURCE => "resource"
  | .CRITICAL => "critical"

/-- `class ResolutionStrategy(Enum)` of the source. -/
inductive ResolutionStrategy where
  | AUTO_RETRY
  | PARAMETER_ADJUSTMENT
  | ALTERNATIVE_PATH
  | HUMAN_ESCALATION
  | GRACEFUL_DEGRADATION
deriving DecidableEq, Repr

/-- Values stored in the `Dict[str, Any]` fields `metadata` and `metrics`.
The source only ever stores booleans (`simulate_issues`, `mock`), the
float `0.8` (`quality_threshold`, modelled as the rational `0.8`) and
numbers; strings are included for generality. -/
inductive MetaVal where
  | b (v : Bool)
  | q (v : Rat)
  | s (v : String)
deriving DecidableEq, Repr

/-- The free-form `context: Dict[str, Any]` of an `Issue`.  The core never
reads this field; the source stores `{"command": cmd}` for simulated
issues and `{"result": result}` for the synthesized critical issue, the
latter modelled by the failed result's phase, success flag and issue
count since the payload is never inspected. -/
inductive CtxPayload where
  | empty
  | command (cmd : String)
  | failedResult (phase : PipelinePhase) (success : Bool) (issueCount : Nat)
deriving DecidableEq, Repr

/-- `@dataclass PipelineContext` of the source.  `Dict` fields are
insertion-ordered association lists. -/
structure PipelineContext where
  project_id : String
  snapshot : String
  app_name : String
  target_language : String := "java"
  script_language : String := "bash"
  environment_vars : List (String × String) := []
  metadata : List (String × MetaVal) := []
  artifacts : List String := []
  metrics : List (String × MetaVal) := []
deriving DecidableEq, Repr

/-- `@dataclass Issue` of the source.  `timestamp` is a logical-clock
value (the source uses `time.time()`). -/
structure Issue where
  issue_type : IssueType
  severity : String
  phase : PipelinePhase
  message : String
  context : CtxPayload := .empty
  suggested_resolution : Option ResolutionStrategy := none
  timestamp : Nat := 0
deriving DecidableEq, Repr

/-- `@dataclass PhaseResult` of the source.  `execution_time` is kept as a
natural number of time units (the source uses a float). -/
structure PhaseResult where
  phase : PipelinePhase
  success : Bool
  artifacts : List String := []
  issues : List Issue := []
  metrics : List (String × MetaVal) := []
  execution_time : Nat := 0
  agent_decisions : List AgentDecision := []
deriving DecidableEq, Repr

/-- The `decision_record` dict appended by `AgenticAgent.log_decision`:
timestamp, the decision's `.value` string, the accompanying context
mapping, and the agent's name. -/
structure DecisionRecord where
  timestamp : Nat
  decision : String
  context : List (String × String)
  agent : String
deriving DecidableEq, Repr

/-- The `escalation_data` dict assembled by
`IssueResolutionAgent._execute_escalation_strategy` and handed to the
external sink. -/
structure EscalationData where
  timestamp : Nat
  project_id : String
  phase : String
  issue_type : String
  severity : String
  message : String
  context : CtxPayload
deriving DecidableEq, Repr

/-- The explicit state threaded through the orchestrator: the mutable
`PipelineContext`, the resolver's `decision_history`, the orchestrator's
`execution_history`, and the observable external effects (escalation
sink, sleep trace, logical clock). -/
structure OrchState where
  ctx : PipelineContext
  decision_history : List DecisionRecord := []
  escalations : List EscalationData := []
  sleeps : List Nat := []
  execution_history : List PhaseResult := []
  clock : Nat := 0
deriving DecidableEq, Repr

/-- `d[k] = v` on an insertion-ordered Python dict: update the existing
key in place, else append at the end. -/
def setKey (k : String) (v : α) : List (String × α) → List (String × α)
  | [] => [(k, v)]
  | (k', v') :: t => if k' = k then (k, v) :: t else (k', v') :: setKey k v t

/-- `d.get(k)` on an insertion-ordered Python dict. -/
def getKey (k : String) : List (String × α) → Option α
  | [] => none
  | (k', v) :: t => if k' = k then some v else getKey k t

/-- Does the character list start with the given needle? -/
def leadMatch : List Char → List Char → Bool
  | [], _ => true
  | _ :: _, [] => false
  | a :: as, b :: bs => a == b && leadMatch as bs

/-- Does the needle occur as a contiguous subsequence of the haystack? -/
def subSeq (needle : List Char) : List Char → Bool
  | [] => needle.isEmpty
  | c :: t => leadMatch needle (c :: t) || subSeq needle t

/-- Python's `needle in hay` on strings. -/
def strContains (hay needle : String) : Bool :=
  subSeq needle.toList hay.toList

/-- Python's `str.lower()`, character by character. -/
def lowerStr (s : String) : String := String.mk (s.toList.map Char.toLower)

/-- A registered phase executor: the external-collaborator contract
`execute(context: PipelineContext) -> PhaseResult`. -/
def Executor : Type := PipelineContext → PhaseResult

/-- The orchestrator's `self.phase_executors` registry. -/
def ExecutorMap : Type := PipelinePhase → Option Executor

/-- `IssueResolutionAgent.analyze_situation`: pattern-based decision
making over `(issue_type, severity)`; unmatched combinations default to
`PROCEED` (the trailing `return AgentDecision.PROCEED` of the source). -/
def analyze_situation (_ctx : PipelineContext) (issue : Issue) : AgentDecision :=
  if issue.issue_type = .TRANSIENT then
    if issue.severity = "low" then .RETRY
    else if issue.severity = "medium" then .ADAPT
    else .PROCEED
  else if issue.issue_type = .CONFIGURATION then .ADAPT
  else if issue.issue_type = .DATA_QUALITY then
    if issue.severity = "low" ∨ issue.severity = "medium" then .ADAPT
    else .ESCALATE
  else if issue.issue_type = .CRITICAL then .ESCALATE
  else .PROCEED

/-- `AgenticAgent.log_decision`: append a `DecisionRecord` with the
current time, the decision's `.value`, the given context mapping and the
agent name (`"IssueResolver"` for the issue-resolution agent). -/
def log_decision (s : OrchState) (decision : AgentDecision)
    (context : List (String × String)) : OrchState :=
  { s with
    clock := s.clock + 1
    decision_history := s.decision_history ++
      [{ timestamp := s.clock
         decision := decisionValue decision
         context := context
         agent := "IssueResolver" }] }

/-- The body of `_execute_retry_strategy`'s `for attempt in
range(max_retries)` loop: sleep `base_delay * 2 ** attempt` (base_delay
= 2), then return success as soon as `attempt >= 1` (the source's
simulated "success after retry"); falling off the loop returns failure. -/
def retryAttempts : List Nat → OrchState → Bool × OrchState
  | [], s => (false, s)
  | attempt :: rest, s =>
    let s' := { s with sleeps := s.sleeps ++ [2 * 2 ^ attempt] }
    if 1 ≤ attempt then (true, s') else retryAttempts rest s'

/-- `IssueResolutionAgent._execute_retry_strategy`: up to `max_retries =
3` attempts with exponential backoff. -/
def execute_retry_strategy (s : OrchState) (_issue : Issue) : Bool × OrchState :=
  retryAttempts (List.range 3) s

/-- `IssueResolutionAgent._execute_adaptation_strategy`: keyword-triggered
mutation of `context.environment_vars` (only for `CONFIGURATION` issues)
or `context.metadata` (only for `DATA_QUALITY` issues); always returns
`True`. -/
def execute_adaptation_strategy (s : OrchState) (issue : Issue) : Bool × OrchState :=
  if issue.issue_type = .CONFIGURATION then
    if strContains (lowerStr issue.message) "timeout" then
      (true, { s with ctx := { s.ctx with
        environment_vars := setKey "TIMEOUT" "600" s.ctx.environment_vars } })
    else if strContains (lowerStr issue.message) "memory" then
      (true, { s with ctx := { s.ctx with
        environment_vars := setKey "MEMORY_LIMIT" "4G" s.ctx.environment_vars } })
    else (true, s)
  else if issue.issue_type = .DATA_QUALITY then
    (true, { s with ctx := { s.ctx with
      metadata := setKey "quality_threshold" (MetaVal.q 0.8) s.ctx.metadata } })
  else (true, s)

/-- `IssueResolutionAgent._execute_escalation_strategy`: assemble the
`escalation_data` record and hand it to the external sink; always
returns `True`. -/
def execute_escalation_strategy (s : OrchState) (issue : Issue) : Bool × OrchState :=
  let record : EscalationData :=
    { timestamp := s.clock
      project_id := s.ctx.project_id
      phase := phaseValue issue.phase
      issue_type := issueTypeValue issue.issue_type
      severity := issue.severity
      message := issue.message
      context := issue.context }
  (true, { s with clock := s.clock + 1, escalations := s.escalations ++ [record] })

/-- `IssueResolutionAgent.execute_decision`: dispatch to the strategy for
the decision.  `PROCEED` is a no-op returning `True`; `TERMINATE`
returns `False`. -/
def execute_decision (decision : AgentDecision) (s : OrchState) (issue : Issue) :
    Bool × OrchState :=
  match decision with
  | .RETRY => execute_retry_strategy s issue
  | .ADAPT => execute_adaptation_strategy s issue
  | .ESCALATE => execute_escalation_strategy s issue
  | .PROCEED => (true, s)
  | .TERMINATE => (false, s)

/-- `AgenticPipelineOrchestrator._resolve_issue_with_agent`: analyze the
issue, log the decision with the issue's classification, phase and
severity as context, then execute the decision. -/
def resolve_issue_with_agent (s : OrchState) (issue : Issue) : Bool × OrchState :=
  let decision := analyze_situation s.ctx issue
  let s' := log_decision s decision
    [("issue_type", issueTypeValue issue.issue_type),
     ("phase", phaseValue issue.phase),
     ("severity", issue.severity)]
  execute_decision decision s' issue

/-- The `for issue in result.issues` resolution loop of
`_execute_phase_with_agent`: resolve each issue in the order reported,
threading the state, and collect each call's boolean result. -/
def resolveAll : List Issue → OrchState → List Bool × OrchState
  | [], s => ([], s)
  | issue :: rest, s =>
    let (b, s') := resolve_issue_with_agent s issue
    let (bs, s'') := resolveAll rest s'
    (b :: bs, s'')

/-- `AgenticPipelineOrchestrator._execute_phase_with_agent`: phases with
no registered executor yield the mock stub result; otherwise run the
executor, and when issues were reported resolve each one, overwriting
`success` to `True` exactly when every resolution call returned `True`
(the source's `len(resolved_issues) == len(result.issues)` check). -/
def execute_phase_with_agent (execs : ExecutorMap) (phase : PipelinePhase)
    (s : OrchState) : PhaseResult × OrchState :=
  match execs phase with
  | none =>
    ({ phase := phase
       success := true
       artifacts := [phaseValue phase ++ "_mock_artifact"]
       issues := []
       metrics := [("mock", MetaVal.b true)]
       execution_time := 1
       agent_decisions := [] }, s)
  | some ex =>
    let result := ex s.ctx
    if result.issues.isEmpty then (result, s)
    else
      let (bs, s') := resolveAll result.issues s
      if bs.all id then ({ result with success := true }, s')
      else (result, s')

/-- The critical `Issue` synthesized by `_handle_phase_failure` for a
failed phase, at clock value `t`. -/
def criticalIssueFor (phase : PipelinePhase) (result : PhaseResult) (t : Nat) : Issue :=
  { issue_type := .CRITICAL
    severity := "high"
    phase := phase
    message := "Phase " ++ phaseValue phase ++ " failed with " ++
      toString result.issues.length ++ " issues"
    context := .failedResult result.phase result.success result.issues.length
    suggested_resolution := none
    timestamp := t }

/-- The branch structure of `_handle_phase_failure` on the agent's
decision: `TERMINATE` returns `False`; `ESCALATE` executes the decision
(escalation) and still returns `False`; any other decision logs a
degraded-functionality warning and returns `True`. -/
def handleFailureBranch (decision : AgentDecision) (issue : Issue)
    (s : OrchState) : Bool × OrchState :=
  if decision = .TERMINATE then (false, s)
  else if decision = .ESCALATE then (false, (execute_decision decision s issue).2)
  else (true, s)

/-- `AgenticPipelineOrchestrator._handle_phase_failure`: synthesize a
critical/high issue for the failed phase, let the agent decide, and act
per `handleFailureBranch`. -/
def handle_phase_failure (phase : PipelinePhase) (result : PhaseResult)
    (s : OrchState) : Bool × OrchState :=
  let critical_issue := criticalIssueFor phase result s.clock
  let s' := { s with clock := s.clock + 1 }
  handleFailureBranch (analyze_situation s'.ctx critical_issue) critical_issue s'

/-- The `for phase in phases` loop of `execute_pipeline`: run each phase,
append its result to the execution history, and on failure consult
`_handle_phase_failure` — `False` breaks out of the loop, `True`
continues with `overall_success` cleared.  On success the phase's
artifacts are appended to the shared context. -/
def runPhases (execs : ExecutorMap) :
    List PipelinePhase → Bool → OrchState → Bool × OrchState
  | [], overall, s => (overall, s)
  | phase :: rest, overall, s =>
    let pr := execute_phase_with_agent execs phase s
    let result := pr.1
    let s₁ := pr.2
    let s₂ := { s₁ with execution_history := s₁.execution_history ++ [result] }
    if result.success then
      let s₃ := { s₂ with ctx := { s₂.ctx with
        artifacts := s₂.ctx.artifacts ++ result.artifacts } }
      runPhases execs rest overall s₃
    else
      let hf := handle_phase_failure phase result s₂
      if hf.1 then runPhases execs rest false hf.2
      else (false, hf.2)

/-- `AgenticPipelineOrchestrator.execute_pipeline`: run the requested
phases (defaulting to extract/validate/analyze/transform/build) and
return the overall success flag.  Report generation only logs and is
omitted. -/
def execute_pipeline (execs : ExecutorMap) (phases : Option (List PipelinePhase))
    (s : OrchState) : Bool × OrchState :=
  runPhases execs
    (phases.getD [.EXTRACT, .VALIDATE, .ANALYZE, .TRANSFORM, .BUILD]) true s

/-! Concrete fixtures used by witnesses and counterexamples. -/

/-- A concrete pipeline context, as built by `main()` of the source. -/
def ctx0 : PipelineContext :=
  { project_id := "demo-project", snapshot := "snapshot-1", app_name := "demo-app" }

/-- The initial orchestrator state for `ctx0`. -/
def s0 : OrchState := { ctx := ctx0 }

/-- A failing phase result with no issues: the only shape that reaches
`_handle_phase_failure`. -/
def r_fail : PhaseResult := { phase := .VALIDATE, success := false }

/-- An executor registry in which every phase fails with `r_fail`. -/
def execsFail : ExecutorMap := fun _ => some (fun _ => r_fail)

/-- The transient/medium timeout issue simulated by
`ExtractPhaseExecutor` when `simulate_issues` is set. -/
def issueT : Issue :=
  { issue_type := .TRANSIENT
    severity := "medium"
    phase := .EXTRACT
    message := "Temporary network timeout during COBOL program extraction"
    context := .command "py -3 tools/migratonomy/obtain-cobol-programs.py" }

/-- The phase result `ExtractPhaseExecutor` returns when it simulates
the transient timeout issue. -/
def r_timeout : PhaseResult :=
  { phase := .EXTRACT, success := false, issues := [issueT] }

/-- The executor producing `r_timeout`. -/
def exT : Executor := fun _ => r_timeout

/-- A registry in which every phase runs `exT`. -/
def execsT : ExecutorMap := fun _ => some exT

/-- A data-quality/low issue, used to exercise one routed decision. -/
def issueDQ : Issue :=
  { issue_type := .DATA_QUALITY
    severity := "low"
    phase := .VALIDATE
    message := "data anomaly detected in validation sample" }

/-- A failing phase result carrying the single `issueDQ`. -/
def r_dq : PhaseResult := { phase := .VALIDATE, success := false, issues := [issueDQ] }

/-- The executor producing `r_dq`. -/
def exDQ : Executor := fun _ => r_dq

/-- A registry in which every phase runs `exDQ`. -/
def execsDQ : ExecutorMap := fun _ => some exDQ

/-- An empty registry: no phase has a registered executor. -/
def execsNone : ExecutorMap := fun _ => none

/-! Helper lemmas shared by the claim theorems. -/

/-- `execute_decision` never touches the resolver's `decision_history`. -/
theorem execute_decision_history (d : AgentDecision) (s : OrchState) (i : Issue) :
    (execute_decision d s i).2.decision_history = s.decision_history := by
  cases d
  case PROCEED => rfl
  case RETRY => rfl
  case ESCALATE => rfl
  case TERMINATE => rfl
  case ADAPT =>
    unfold execute_decision execute_adaptation_strategy
    repeat' split
    all_goals rfl

/-- `execute_decision` returns `True` for every decision except `TERMINATE`. -/
theorem execute_decision_true (d : AgentDecision) (s : OrchState) (i : Issue)
    (h : d ≠ .TERMINATE) : (execute_decision d s i).1 = true := by
  cases d
  case PROCEED => rfl
  case RETRY => rfl
  case ESCALATE => rfl
  case TERMINATE => exact absurd rfl h
  case ADAPT =>
    show (execute_adaptation_strategy s i).1 = true
    unfold execute_adaptation_strategy
    repeat' split
    all_goals rfl

/-- `analyze_situation` never returns `TERMINATE`: no branch of the
pattern table produces it. -/
theorem analyze_situation_ne_terminate (c : PipelineContext) (i : Issue) :
    analyze_situation c i ≠ .TERMINATE := by
  unfold analyze_situation
  repeat' split
  all_goals simp

/-- Every call of `_resolve_issue_with_agent` returns `True`: the policy
never returns `TERMINATE`, and every other strategy reports success. -/
theorem resolve_issue_with_agent_true (s : OrchState) (i : Issue) :
    (resolve_issue_with_agent s i).1 = true := by
  unfold resolve_issue_with_agent
  exact execute_decision_true _ _ _ (analyze_situation_ne_terminate s.ctx i)

/-- Unfolding equation for the resolution loop on a non-empty issue
list (the let-pattern of `resolveAll` written with projections). -/
theorem resolveAll_cons (i : Issue) (rest : List Issue) (s : OrchState) :
    resolveAll (i :: rest) s =
      ((resolve_issue_with_agent s i).1 ::
         (resolveAll rest (resolve_issue_with_agent s i).2).1,
       (resolveAll rest (resolve_issue_with_agent s i).2).2) := rfl

/-- In the resolution loop every collected boolean is `true`. -/
theorem resolveAll_all_true (issues : List Issue) (s : OrchState) :
    (resolveAll issues s).1.all id = true := by
  induction issues generalizing s with
  | nil => rfl
  | cons i rest ih =>
    rw [resolveAll_cons]
    simp only [List.all_cons, id, resolve_issue_with_agent_true, Bool.true_and]
    exact ih _

/-- Each routed issue appends exactly one `DecisionRecord`. -/
theorem resolve_issue_history_length (s : OrchState) (i : Issue) :
    (resolve_issue_with_agent s i).2.decision_history.length =
      s.decision_history.length + 1 := by
  unfold resolve_issue_with_agent
  rw [execute_decision_history]
  simp [log_decision]

/-- The resolution loop appends exactly one `DecisionRecord` per issue. -/
theorem resolveAll_history_length (issues : List Issue) (s : OrchState) :
    (resolveAll issues s).2.decision_history.length =
      s.decision_history.length + issues.length := by
  induction issues generalizing s with
  | nil => rfl
  | cons i rest ih =>
    rw [resolveAll_cons]
    have h1 := resolve_issue_history_length s i
    have h2 := ih (resolve_issue_with_agent s i).2
    simp only [List.length_cons]
    omega

/-! Claim theorems. -/

/-- Claim C1: the decision policy `analyze_situation` is a total,
side-effect-free function of `(issue_type, severity)`: it depends on no
other input (first conjunct), and over the severity vocabulary
low/medium/high it returns RETRY for (transient, low), ADAPT for
(transient, medium), ADAPT for (configuration, any), ADAPT for
(data_quality, low or medium), ESCALATE for (data_quality, high),
ESCALATE for (critical, any), and PROCEED for every other combination,
including every resource-typed issue and (transient, high). -/
theorem c1_decision_policy_table :
    ∀ (c : PipelineContext) (p : PipelinePhase) (m : String) (cp : CtxPayload)
      (sr : Option ResolutionStrategy) (t : Nat),
    (∀ (c' : PipelineContext) (i i' : Issue), i.issue_type = i'.issue_type →
      i.severity = i'.severity → analyze_situation c i = analyze_situation c' i') ∧
    analyze_situation c ⟨.TRANSIENT, "low", p, m, cp, sr, t⟩ = .RETRY ∧
    analyze_situation c ⟨.TRANSIENT, "medium", p, m, cp, sr, t⟩ = .ADAPT ∧
    analyze_situation c ⟨.TRANSIENT, "high", p, m, cp, sr, t⟩ = .PROCEED ∧
    analyze_situation c ⟨.CONFIGURATION, "low", p, m, cp, sr, t⟩ = .ADAPT ∧
    analyze_situation c ⟨.CONFIGURATION, "medium", p, m, cp, sr, t⟩ = .ADAPT ∧
    analyze_situation c ⟨.CONFIGURATION, "high", p, m, cp, sr, t⟩ = .ADAPT ∧
    analyze_situation c ⟨.DATA_QUALITY, "low", p, m, cp, sr, t⟩ = .ADAPT ∧
    analyze_situation c ⟨.DATA_QUALITY, "medium", p, m, cp, sr, t⟩ = .ADAPT ∧
    analyze_situation c ⟨.DATA_QUALITY, "high", p, m, cp, sr, t⟩ = .ESCALATE ∧
    analyze_situation c ⟨.CRITICAL, "low", p, m, cp, sr, t⟩ = .ESCALATE ∧
    analyze_situation c ⟨.CRITICAL, "medium", p, m, cp, sr, t⟩ = .ESCALATE ∧
    analyze_situation c ⟨.CRITICAL, "high", p, m, cp, sr, t⟩ = .ESCALATE ∧
    analyze_situation c ⟨.RESOURCE, "low", p, m, cp, sr, t⟩ = .PROCEED ∧
    analyze_situation c ⟨.RESOURCE, "medium", p, m, cp, sr, t⟩ = .PROCEED ∧
    analyze_situation c ⟨.RESOURCE, "high", p, m, cp, sr, t⟩ = .PROCEED := by
  intro c p m cp sr t
  refine ⟨?_, rfl, rfl, rfl, rfl, rfl, rfl, rfl, rfl, rfl, rfl, rfl, rfl, rfl, rfl, rfl⟩
  intro c' i i' ht hs
  unfold analyze_situation
  rw [ht, hs]

/-- Witness for C1: the policy evaluated at two issues agreeing on
`(issue_type, severity)` but differing in phase, message and context
gives the same decision. -/
theorem c1_decision_policy_table_witness :
    analyze_situation ctx0 issueT =
      analyze_situation ctx0
        { issue_type := .TRANSIENT, severity := "medium", phase := .BUILD
          message := "another message" } :=
  (c1_decision_policy_table ctx0 .EXTRACT "m" .empty none 0).1 ctx0 issueT
    { issue_type := .TRANSIENT, severity := "medium", phase := .BUILD
      message := "another message" } rfl rfl

/-- Claim C8: executing a `PROCEED` or `ESCALATE` decision is idempotent:
both calls (the second from the state the first produced) return `true`,
and neither changes any field of the `PipelineContext`. -/
theorem c8_proceed_escalate_idempotent :
    ∀ (s : OrchState) (issue : Issue),
    (execute_decision .PROCEED s issue).1 = true ∧
    (execute_decision .PROCEED s issue).2.ctx = s.ctx ∧
    (execute_decision .PROCEED (execute_decision .PROCEED s issue).2 issue).1 = true ∧
    (execute_decision .PROCEED (execute_decision .PROCEED s issue).2 issue).2.ctx = s.ctx ∧
    (execute_decision .ESCALATE s issue).1 = true ∧
    (execute_decision .ESCALATE s issue).2.ctx = s.ctx ∧
    (execute_decision .ESCALATE (execute_decision .ESCALATE s issue).2 issue).1 = true ∧
    (execute_decision .ESCALATE (execute_decision .ESCALATE s issue).2 issue).2.ctx = s.ctx :=
  fun _ _ => ⟨rfl, rfl, rfl, rfl, rfl, rfl, rfl, rfl⟩

/-- Claim C9: a phase with no registered executor yields the stub result
`success=True`, `artifacts=["<phase>_mock_artifact"]`, and the state is
returned untouched — neither the Phase Executor nor the Decision Policy
nor the Resolution Executor runs (no decision records, escalations,
sleeps or context changes). -/
theorem c9_unregistered_phase_stub :
    ∀ (execs : ExecutorMap) (phase : PipelinePhase) (s : OrchState),
    execs phase = none →
    execute_phase_with_agent execs phase s =
      ({ phase := phase
         success := true
         artifacts := [phaseValue phase ++ "_mock_artifact"]
         issues := []
         metrics := [("mock", MetaVal.b true)]
         execution_time := 1
         agent_decisions := [] }, s) := by
  intro execs phase s h
  unfold execute_phase_with_agent
  rw [h]

/-- Witness for C9: the empty registry at the DEPLOY phase. -/
theorem c9_unregistered_phase_stub_witness :
    execute_phase_with_agent execsNone .DEPLOY s0 =
      ({ phase := .DEPLOY
         success := true
         artifacts := [phaseValue .DEPLOY ++ "_mock_artifact"]
         issues := []
         metrics := [("mock", MetaVal.b true)]
         execution_time := 1
         agent_decisions := [] }, s0) :=
  c9_unregistered_phase_stub execsNone .DEPLOY s0 rfl

/-- Claim C3: for every state and issue, the RETRY strategy sleeps the
backoff schedule `delay = 2 * 2^attempt`, observes at most 3 attempts
(the observed delays extended by attempt 2's delay give exactly
`[2, 4, 8]`), changes nothing but the sleep trace, returns success at an
attempt index at least 1 (at least two delays elapse, so a first-attempt
success is never reported), and the loop's exhaustion case reports
failure. -/
theorem c3_retry_backoff :
    ∀ (s : OrchState) (issue : Issue),
    (execute_retry_strategy s issue).1 = true ∧
    (execute_retry_strategy s issue).2 = { s with sleeps := s.sleeps ++ [2, 4] } ∧
    (execute_retry_strategy s issue).2.sleeps.length - s.sleeps.length ≤ 3 ∧
    2 ≤ (execute_retry_strategy s issue).2.sleeps.length - s.sleeps.length ∧
    (execute_retry_strategy s issue).2.sleeps ++ [2 * 2 ^ 2] = s.sleeps ++ [2, 4, 8] ∧
    [2, 4] = [2 * 2 ^ 0, 2 * 2 ^ 1] ∧
    (∀ (t : OrchState), retryAttempts [] t = (false, t)) := by
  intro s issue
  have base : execute_retry_strategy s issue =
      (true, { s with sleeps := (s.sleeps ++ [2 * 2 ^ 0]) ++ [2 * 2 ^ 1] }) := rfl
  refine ⟨rfl, ?_, ?_, ?_, ?_, by norm_num, fun t => rfl⟩
  · rw [base]
    simp [List.append_assoc]
  · rw [base]
    simp [List.length_append]
  · rw [base]
    simp [List.length_append]
  · rw [base]
    simp [List.append_assoc]

/-- Unfolding equation for `_execute_phase_with_agent` on a registered
executor whose result reports at least one issue. -/
theorem execute_phase_with_agent_some (execs : ExecutorMap) (phase : PipelinePhase)
    (ex : Executor) (s : OrchState) (hex : execs phase = some ex)
    (hne : (ex s.ctx).issues ≠ []) :
    execute_phase_with_agent execs phase s =
      (if (resolveAll (ex s.ctx).issues s).1.all id
        then { ex s.ctx with success := true } else ex s.ctx,
       (resolveAll (ex s.ctx).issues s).2) := by
  have hie : (ex s.ctx).issues.isEmpty = false := by
    cases h : (ex s.ctx).issues
    · exact absurd h hne
    · rfl
  unfold execute_phase_with_agent
  rw [hex]
  simp only [hie, Bool.false_eq_true, if_false]
  split <;> rfl

/-- Claim C2: after the control loop routes a phase's (non-empty) issue
list through resolution, if every resolution call returned `true` the
result's success flag is set to `true`, and if one returned `false` the
flag ends up `false`.  The third conjunct records that with the concrete
resolver every resolution call does return `true` (so the second
conditional is vacuous in any actual run). -/
theorem c2_all_resolved_flips_success :
    ∀ (execs : ExecutorMap) (phase : PipelinePhase) (ex : Executor) (s : OrchState),
    execs phase = some ex → (ex s.ctx).issues ≠ [] →
    ((resolveAll (ex s.ctx).issues s).1.all id = true →
      (execute_phase_with_agent execs phase s).1.success = true) ∧
    ((resolveAll (ex s.ctx).issues s).1.all id = false →
      (execute_phase_with_agent execs phase s).1.success = false) ∧
    (resolveAll (ex s.ctx).issues s).1.all id = true := by
  intro execs phase ex s hex hne
  have hall := resolveAll_all_true (ex s.ctx).issues s
  have hunf := execute_phase_with_agent_some execs phase ex s hex hne
  refine ⟨fun _ => ?_, fun hfalse => ?_, hall⟩
  · rw [hunf]
    simp [hall]
  · simp [hall] at hfalse

/-- Witness for C2: the simulated extract run with one transient/medium
issue; the executor reported failure, every resolution returned true,
and the phase result was flipped to success. -/
theorem c2_all_resolved_flips_success_witness :
    (execute_phase_with_agent execsT .EXTRACT s0).1.success = true ∧
    r_timeout.success = false := by
  have h := c2_all_resolved_flips_success execsT .EXTRACT exT s0 rfl (by decide)
  exact ⟨h.1 h.2.2, rfl⟩

/-- Claim C5 counterexample: a failed phase (no issues) routed through
`_handle_phase_failure` executes the escalation decision (one record
reaches the escalation sink) while the resolver's `decision_history`
stays empty: a decision execution with no preceding `DecisionRecord`
append, refuting the claim for the phase-failure path. -/
theorem c5_counterexample :
    (handle_phase_failure .VALIDATE r_fail s0).2.escalations.length =
      s0.escalations.length + 1 ∧
    (handle_phase_failure .VALIDATE r_fail s0).2.decision_history =
      s0.decision_history ∧
    s0.decision_history = [] :=
  ⟨rfl, rfl, rfl⟩

/-- Claim C5 as amended: every issue routed through the per-issue path
`_resolve_issue_with_agent` yields exactly one `DecisionRecord`
(timestamp, decision value, issue classification/phase/severity context,
agent name) appended before the decision executes; but the critical
issue synthesized on the phase-failure path yields an `AgentDecision`
and no `DecisionRecord` at all. -/
theorem c5_decision_record_amended :
    (∀ (s : OrchState) (issue : Issue),
      (resolve_issue_with_agent s issue).2.decision_history =
        s.decision_history ++
          [{ timestamp := s.clock
             decision := decisionValue (analyze_situation s.ctx issue)
             context := [("issue_type", issueTypeValue issue.issue_type),
                         ("phase", phaseValue issue.phase),
                         ("severity", issue.severity)]
             agent := "IssueResolver" }]) ∧
    (∀ (p : PipelinePhase) (r : PhaseResult) (s : OrchState),
      (handle_phase_failure p r s).2.decision_history = s.decision_history) := by
  constructor
  · intro s issue
    show (execute_decision (analyze_situation s.ctx issue)
        (log_decision s (analyze_situation s.ctx issue)
          [("issue_type", issueTypeValue issue.issue_type),
           ("phase", phaseValue issue.phase),
           ("severity", issue.severity)]) issue).2.decision_history = _
    rw [execute_decision_history]
    rfl
  · intro p r s
    rfl

/-- Claim C7 counterexample: a phase whose executor reports one
data-quality issue: the issue is routed (one decision is logged in the
resolver's history) yet the returned `PhaseResult.agent_decisions` stays
empty instead of holding one applied decision per routed issue. -/
theorem c7_counterexample :
    r_dq.issues.length = 1 ∧
    (execute_phase_with_agent execsDQ .VALIDATE s0).2.decision_history.length =
      s0.decision_history.length + 1 ∧
    (execute_phase_with_agent execsDQ .VALIDATE s0).1.agent_decisions = [] := by
  refine ⟨rfl, by decide, by decide⟩

/-- Claim C7 as amended: the control loop never populates
`PhaseResult.agent_decisions` — after resolution it is exactly the list
the executor returned (empty for the mock stub) — and the decisions
applied while resolving are recorded instead in the resolver's
`decision_history`, exactly one per routed issue. -/
theorem c7_agent_decisions_amended :
    (∀ (execs : ExecutorMap) (phase : PipelinePhase) (ex : Executor) (s : OrchState),
      execs phase = some ex →
      (execute_phase_with_agent execs phase s).1.agent_decisions =
        (ex s.ctx).agent_decisions ∧
      (execute_phase_with_agent execs phase s).2.decision_history.length =
        s.decision_history.length + (ex s.ctx).issues.length) ∧
    (∀ (execs : ExecutorMap) (phase : PipelinePhase) (s : OrchState),
      execs phase = none →
      (execute_phase_with_agent execs phase s).1.agent_decisions = []) := by
  constructor
  · intro execs phase ex s hex
    by_cases hne : (ex s.ctx).issues = []
    · have hu : execute_phase_with_agent execs phase s = (ex s.ctx, s) := by
        unfold execute_phase_with_agent
        rw [hex]
        simp [hne]
      rw [hu]
      simp [hne]
    · have hunf := execute_phase_with_agent_some execs phase ex s hex hne
      rw [hunf]
      constructor
      · split <;> rfl
      · exact resolveAll_history_length (ex s.ctx).issues s
  · intro execs phase s h
    unfold execute_phase_with_agent
    rw [h]

/-- Witness for the amended C7: the data-quality run appends exactly one
decision record for its one routed issue. -/
theorem c7_agent_decisions_amended_witness :
    (execute_phase_with_agent execsDQ .VALIDATE s0).2.decision_history.length =
      s0.decision_history.length + (exDQ s0.ctx).issues.length :=
  (c7_agent_decisions_amended.1 execsDQ .VALIDATE exDQ s0 rfl).2

/-- Unfolding the control loop at a phase whose (resolved) result
succeeded: the result is appended to history, its artifacts to the
shared context, and the loop continues with the remaining phases. -/
theorem runPhases_cons_success (execs : ExecutorMap) (phase : PipelinePhase)
    (rest : List PipelinePhase) (overall : Bool) (s : OrchState)
    (result : PhaseResult) (s₁ : OrchState)
    (h : execute_phase_with_agent execs phase s = (result, s₁))
    (hs : result.success = true) :
    runPhases execs (phase :: rest) overall s =
      runPhases execs rest overall
        { s₁ with
          ctx := { s₁.ctx with artifacts := s₁.ctx.artifacts ++ result.artifacts }
          execution_history := s₁.execution_history ++ [result] } := by
  simp only [runPhases]
  rw [h]
  simp only [hs, if_true]

/-- Unfolding the control loop at a phase whose (resolved) result
failed: since the failure handler always returns `False` (its synthetic
issue is critical/high, hence ESCALATE), the loop breaks with overall
result `false` and the handler's state. -/
theorem runPhases_cons_failure (execs : ExecutorMap) (phase : PipelinePhase)
    (rest : List PipelinePhase) (overall : Bool) (s : OrchState)
    (result : PhaseResult) (s₁ : OrchState)
    (h : execute_phase_with_agent execs phase s = (result, s₁))
    (hs : result.success = false) :
    runPhases execs (phase :: rest) overall s =
      (false, (handle_phase_failure phase result
        { s₁ with execution_history := s₁.execution_history ++ [result] }).2) := by
  simp only [runPhases]
  rw [h]
  simp only [hs, Bool.false_eq_true, if_false]
  rfl

/-- Resolving a transient/medium issue: the policy picks `ADAPT`, the
adaptation strategy matches neither the configuration nor the
data-quality branch and so changes nothing; only the decision log (and
clock) advance. -/
theorem resolve_transient_medium (s : OrchState) (issue : Issue)
    (ht : issue.issue_type = .TRANSIENT) (hs : issue.severity = "medium") :
    resolve_issue_with_agent s issue =
      (true, log_decision s .ADAPT
        [("issue_type", issueTypeValue issue.issue_type),
         ("phase", phaseValue issue.phase),
         ("severity", issue.severity)]) := by
  have hana : analyze_situation s.ctx issue = .ADAPT := by
    unfold analyze_situation
    rw [ht, hs]
    simp
  show execute_decision (analyze_situation s.ctx issue)
      (log_decision s (analyze_situation s.ctx issue)
        [("issue_type", issueTypeValue issue.issue_type),
         ("phase", phaseValue issue.phase),
         ("severity", issue.severity)]) issue = _
  rw [hana]
  show execute_adaptation_strategy _ issue = _
  unfold execute_adaptation_strategy
  rw [ht]
  simp

/-- Claim C6 counterexample: the simulated extract phase reports the
single transient/medium issue whose message mentions a timeout; the
phase is flipped to success, but `environment_vars["TIMEOUT"]` is NOT
set to "600" (the timeout adaptation only fires for configuration-typed
issues), refuting the claimed mutation. -/
theorem c6_counterexample :
    issueT.issue_type = .TRANSIENT ∧
    issueT.severity = "medium" ∧
    strContains (lowerStr issueT.message) "timeout" = true ∧
    r_timeout.issues = [issueT] ∧
    (execute_phase_with_agent execsT .EXTRACT s0).1.success = true ∧
    getKey "TIMEOUT"
      (execute_phase_with_agent execsT .EXTRACT s0).2.ctx.environment_vars = none := by
  refine ⟨rfl, rfl, by decide, rfl, by decide, rfl⟩

/-- Claim C6 as amended: when a phase reports a single transient/medium
issue whose message mentions a timeout, the decision is `ADAPT`, the
adaptation leaves the whole `PipelineContext` (in particular
`environment_vars["TIMEOUT"]`) unchanged, the `PhaseResult` is flipped
to `success=True`, and the run continues to the next phase. -/
theorem c6_transient_timeout_amended :
    ∀ (execs : ExecutorMap) (phase : PipelinePhase) (ex : Executor)
      (s : OrchState) (issue : Issue),
    execs phase = some ex → (ex s.ctx).issues = [issue] →
    issue.issue_type = .TRANSIENT → issue.severity = "medium" →
    strContains (lowerStr issue.message) "timeout" = true →
    (execute_phase_with_agent execs phase s).1 = { ex s.ctx with success := true } ∧
    (execute_phase_with_agent execs phase s).2.ctx = s.ctx ∧
    (∀ (rest : List PipelinePhase) (overall : Bool) (result : PhaseResult)
       (s₁ : OrchState),
      execute_phase_with_agent execs phase s = (result, s₁) →
      runPhases execs (phase :: rest) overall s =
        runPhases execs rest overall
          { s₁ with
            ctx := { s₁.ctx with artifacts := s₁.ctx.artifacts ++ result.artifacts }
            execution_history := s₁.execution_history ++ [result] }) := by
  intro execs phase ex s issue hex hiss ht hsev _htimeout
  have hone := resolve_transient_medium s issue ht hsev
  have hres : resolveAll (ex s.ctx).issues s =
      ([true], log_decision s .ADAPT
        [("issue_type", issueTypeValue issue.issue_type),
         ("phase", phaseValue issue.phase),
         ("severity", issue.severity)]) := by
    rw [hiss, resolveAll_cons, hone]
    rfl
  have hne : (ex s.ctx).issues ≠ [] := by
    rw [hiss]
    simp
  have hunf := execute_phase_with_agent_some execs phase ex s hex hne
  rw [hres] at hunf
  have hunf2 : execute_phase_with_agent execs phase s =
      ({ ex s.ctx with success := true },
       log_decision s .ADAPT
         [("issue_type", issueTypeValue issue.issue_type),
          ("phase", phaseValue issue.phase),
          ("severity", issue.severity)]) := by
    rw [hunf]
    rfl
  refine ⟨by rw [hunf2], by rw [hunf2]; rfl, ?_⟩
  intro rest overall result s₁ hpair
  rw [hunf2] at hpair
  injection hpair with h1 h2
  subst h1
  subst h2
  exact runPhases_cons_success execs phase rest overall s _ _ hunf2 rfl

/-- Witness for the amended C6: the simulated extract run flips the
result to success and leaves the context untouched. -/
theorem c6_transient_timeout_amended_witness :
    (execute_phase_with_agent execsT .EXTRACT s0).1 =
      { exT s0.ctx with success := true } ∧
    (execute_phase_with_agent execsT .EXTRACT s0).2.ctx = s0.ctx := by
  have h := c6_transient_timeout_amended execsT .EXTRACT exT s0 issueT rfl rfl rfl rfl
    (by decide)
  exact ⟨h.1, h.2.1⟩

/-- Claim C4: in the phase-failure escalation path, a `TERMINATE`
decision halts with no state change; an `ESCALATE` decision executes the
escalation strategy and still halts; any other decision continues.
At the loop level, when the phase's final result failed: if the handler
returned `False` the run ends right there with overall result `false`
and no further `PhaseResult` appended after the current one, and if the
handler returned `True` the loop advances to the remaining phases
(without re-running the failed phase) with `overall_success` cleared. -/
theorem c4_halt_propagation :
    (∀ (i : Issue) (s : OrchState), handleFailureBranch .TERMINATE i s = (false, s)) ∧
    (∀ (i : Issue) (s : OrchState),
      handleFailureBranch .ESCALATE i s = (false, (execute_escalation_strategy s i).2)) ∧
    (∀ (d : AgentDecision) (i : Issue) (s : OrchState),
      d ≠ .TERMINATE → d ≠ .ESCALATE → handleFailureBranch d i s = (true, s)) ∧
    (∀ (execs : ExecutorMap) (phases : List PipelinePhase) (s : OrchState),
      execute_pipeline execs (some phases) s = runPhases execs phases true s) ∧
    (∀ (execs : ExecutorMap) (phase : PipelinePhase) (rest : List PipelinePhase)
       (overall : Bool) (s : OrchState) (result : PhaseResult) (s₁ : OrchState),
      execute_phase_with_agent execs phase s = (result, s₁) →
      result.success = false →
      ∀ (cont : Bool) (s₃ : OrchState),
        handle_phase_failure phase result
          { s₁ with execution_history := s₁.execution_history ++ [result] } =
            (cont, s₃) →
        (cont = false →
          runPhases execs (phase :: rest) overall s = (false, s₃) ∧
          s₃.execution_history = s₁.execution_history ++ [result]) ∧
        (cont = true →
          runPhases execs (phase :: rest) overall s = runPhases execs rest false s₃)) := by
  refine ⟨fun i s => rfl, fun i s => rfl, ?_, fun execs phases s => rfl, ?_⟩
  · intro d i s h1 h2
    unfold handleFailureBranch
    rw [if_neg h1, if_neg h2]
  · intro execs phase rest overall s result s₁ hexec hfail cont s₃ hhandle
    have hrun := runPhases_cons_failure execs phase rest overall s result s₁ hexec hfail
    have hc : (handle_phase_failure phase result
        { s₁ with execution_history := s₁.execution_history ++ [result] }).1 = cont := by
      rw [hhandle]
    have h1 : cont = false := by
      rw [← hc]
      rfl
    have h2 : s₃ = (handle_phase_failure phase result
        { s₁ with execution_history := s₁.execution_history ++ [result] }).2 := by
      rw [hhandle]
    constructor
    · intro _
      constructor
      · rw [hrun, h2]
      · rw [h2]
        rfl
    · intro hcont
      rw [h1] at hcont
      exact absurd hcont (by decide)

/-- Witness for C4: a concrete run in which the single phase fails: the
loop halts at once with overall result `false` and the history holds
only the failed phase's result. -/
theorem c4_halt_propagation_witness :
    runPhases execsFail [.VALIDATE] true s0 =
      (false, (handle_phase_failure .VALIDATE r_fail
        { s0 with execution_history := s0.execution_history ++ [r_fail] }).2) := by
  have h := (c4_halt_propagation.2.2.2.2 execsFail .VALIDATE [] true s0 r_fail s0 rfl rfl
    (handle_phase_failure .VALIDATE r_fail
      { s0 with execution_history := s0.execution_history ++ [r_fail] }).1
    (handle_phase_failure .VALIDATE r_fail
      { s0 with execution_history := s0.execution_history ++ [r_fail] }).2
    rfl).1 rfl
  exact h.1

/-- Claim C10: whenever a phase's final `PhaseResult` has
`success=false`, the run halts immediately after that phase: the
synthesized issue is always critical/high, the policy therefore returns
`ESCALATE` for it, the failure handler always returns `False` (so the
degraded-continuation branch is never taken), and the loop ends with
overall result `false` and no later phase's result in the history. -/
theorem c10_failed_phase_always_halts :
    (∀ (p : PipelinePhase) (r : PhaseResult) (t : Nat),
      (criticalIssueFor p r t).issue_type = .CRITICAL ∧
      (criticalIssueFor p r t).severity = "high") ∧
    (∀ (c : PipelineContext) (p : PipelinePhase) (r : PhaseResult) (t : Nat),
      analyze_situation c (criticalIssueFor p r t) = .ESCALATE) ∧
    (∀ (p : PipelinePhase) (r : PhaseResult) (s : OrchState),
      (handle_phase_failure p r s).1 = false ∧
      (handle_phase_failure p r s).2.execution_history = s.execution_history) ∧
    (∀ (execs : ExecutorMap) (phase : PipelinePhase) (rest : List PipelinePhase)
       (overall : Bool) (s : OrchState) (result : PhaseResult) (s₁ : OrchState),
      execute_phase_with_agent execs phase s = (result, s₁) →
      result.success = false →
      runPhases execs (phase :: rest) overall s =
        (false, (handle_phase_failure phase result
          { s₁ with execution_history := s₁.execution_history ++ [result] }).2) ∧
      (runPhases execs (phase :: rest) overall s).2.execution_history =
        s₁.execution_history ++ [result]) := by
  refine ⟨fun p r t => ⟨rfl, rfl⟩, fun c p r t => rfl, fun p r s => ⟨rfl, rfl⟩, ?_⟩
  intro execs phase rest overall s result s₁ hexec hfail
  have hrun := runPhases_cons_failure execs phase rest overall s result s₁ hexec hfail
  refine ⟨hrun, ?_⟩
  rw [hrun]
  rfl

/-- Witness for C10: a two-phase request whose first phase fails: the
final history contains only that first failed result — the second
requested phase is never executed. -/
theorem c10_failed_phase_always_halts_witness :
    (runPhases execsFail [.BUILD, .DEPLOY] true s0).2.execution_history =
      s0.execution_history ++ [r_fail] :=
  (c10_failed_phase_always_halts.2.2.2 execsFail .BUILD [.DEPLOY] true s0 r_fail s0
    rfl rfl).2
